import Mathlib

/-!
Verification development for the lando-api landing-request coordinator.

The definitions below are a shallow embedding of the Python sources:
  * landoapi/models/landing.py   (LandingStatus, Landing, create, save, set_status)
  * landoapi/models/patch.py     (Patch, _upload_patch_to_s3)
  * landoapi/api/landings.py     (the pingback `update` endpoint)
  * landoapi/phabricator.py      (Statuses, get_dependency_tree,
                                  get_first_open_parent_revision)

External collaborators (Phabricator, the transplant service, S3, the
database session and the wall clock) are modelled as explicit parameters;
machine side effects become entries of a `Store` and an event trace.
Integer ids are `Nat`; Python `None` becomes `Option`; calls that may fail
return `Option`/`Except`.
-/

/-- Status of the landing request (enum `LandingStatus` in
landoapi/models/landing.py).  `aborted` stays in the database only if the
landing request was aborted; the `job_*` values are set from create
success and from the pingback. -/
inductive LandingStatus
  | aborted
  | job_submitted
  | job_landed
  | job_failed
deriving DecidableEq, Repr

/-- A row of the `landings` table (class `Landing` in
landoapi/models/landing.py).  `id` is `none` until the row is persisted;
`request_id` is `none` until Transplant returns a job id.  Timestamps are
abstract clock values (`Nat`). -/
structure Landing where
  id : Option Nat
  request_id : Option Nat
  revision_id : Nat
  diff_id : Nat
  active_diff_id : Option Nat
  status : LandingStatus
  error : String
  result : String
  created_at : Nat
  updated_at : Nat
deriving DecidableEq, Repr

/-- `Landing.__init__` as called from `Landing.create`: no request id,
status `aborted`, `created_at` set to the current time.  `error`,
`result` default to the empty string (column defaults) and `updated_at`
is not set until the first `save` (modelled as 0). -/
def Landing.init (revision_id diff_id : Nat) (active_diff_id : Option Nat)
    (now : Nat) : Landing :=
  { id := none, request_id := none, revision_id := revision_id,
    diff_id := diff_id, active_diff_id := active_diff_id,
    status := LandingStatus.aborted, error := "", result := "",
    created_at := now, updated_at := 0 }

/-- `Landing.set_status` (landoapi/models/landing.py lines 206-212): set
the error and result text from the pingback request and move the status
to `landed` or `failed` according to the `landed` flag.  No other field
is touched and no precondition is checked. -/
def Landing.set_status (l : Landing) (landed : Bool) (error result : String) :
    Landing :=
  { l with error := error, result := result,
           status := if landed then LandingStatus.job_landed
                     else LandingStatus.job_failed }

/-- The persistent store: the `landings` table plus the next primary key
the database would assign on insert. -/
structure Store where
  landings : List Landing
  next_id : Nat
deriving DecidableEq, Repr

/-- `Landing.save`: stamp `updated_at`, insert the row (assigning the
next primary key) when it has no id yet, otherwise update the existing
row in place.  Returns the saved object together with the new store. -/
def Store.saveLanding (s : Store) (l : Landing) (now : Nat) :
    Landing × Store :=
  let l1 := { l with updated_at := now }
  match l1.id with
  | none =>
      let l2 := { l1 with id := some s.next_id }
      (l2, { landings := s.landings ++ [l2], next_id := s.next_id + 1 })
  | some i =>
      (l1, { s with landings :=
               s.landings.map (fun x => if x.id = some i then l1 else x) })

/-- An in-memory `Patch` object (landoapi/models/patch.py).  In the
version under verification `Landing.create` builds and uploads the patch
but never calls `Patch.save`, so patches are not persisted to the
database; `s3_url` is filled in by `upload`. -/
structure PatchRec where
  landing_id : Option Nat
  revision_id : Nat
  diff_id : Nat
  parent_id : Option Nat
  s3_url : Option String
deriving DecidableEq, Repr

/-- An object written to the S3 patch bucket. -/
structure S3Object where
  bucket : String
  key : String
  body : String
deriving DecidableEq, Repr

/-- The patch file name computed by `_upload_patch_to_s3`
(landoapi/models/patch.py lines 134-136): `L<landing>_D<revision>_<diff>.patch`. -/
def patch_name (landing_id revision_id diff_id : Nat) : String :=
  "L" ++ toString landing_id ++ "_D" ++ toString revision_id ++ "_" ++
    toString diff_id ++ ".patch"

/-- `_upload_patch_to_s3` (landoapi/models/patch.py lines 114-144): build
the object key from `(landing_id, revision_id, diff_id)`, write the patch
body under that key in the configured bucket and return the
`s3://<bucket>/<key>` address together with the performed write. -/
def upload_patch_to_s3 (patch : String) (landing_id revision_id diff_id : Nat)
    (bucket : String) : String × S3Object :=
  let name := patch_name landing_id revision_id diff_id
  ("s3://" ++ bucket ++ "/" ++ name, ⟨bucket, name, patch⟩)

/-- A revision record as returned by Phabricator, restricted to the
fields `Landing.create` and `Patch` read. -/
structure Revision where
  id : Nat
  activeDiffPHID : String
  authorPHID : String
deriving DecidableEq, Repr

/-- The Phabricator boundary used by `Landing.create` and `Patch.upload`.
Each field is one remote lookup; `build_patch` stands for the pure patch
renderer `build_patch_for_revision` (landoapi/hgexportbuilder.py, a
module outside the verified core), and `get_revision_repo_uri` for the
repository lookup the client performs for a revision. -/
structure PhabEnv where
  get_revision : Nat → Option Revision
  diff_phid_to_id : String → Option Nat
  get_rawdiff : Nat → Option String
  get_revision_author : String → String
  build_patch : String → String → Revision → String
  get_revision_repo_uri : Revision → String

/-- Deployment configuration read by the create flow. -/
structure Config where
  bucket : String
  pingback_host : String

/-- Externally visible effects of one `create` call, in order. -/
inductive Event
  | saveLanding (id : Nat)
  | s3Upload (obj : S3Object)
  | transLand (ldap : String) (patch_urls : List String) (repo_uri : String)
      (callback : String)
deriving DecidableEq, Repr

/-- The failure taxonomy of `Landing.create`
(landoapi/models/landing.py lines 215-251). -/
inductive CreateError
  | revisionNotFound (revision_id : Nat)
  | inactiveDiff (diff_id : Nat) (active_diff_id : Option Nat)
  | overrideDiff (diff_id : Nat) (active_diff_id : Option Nat)
      (override_diff_id : Nat)
  | diffNotFound (diff_id : Nat)
  | landingNotCreated
deriving DecidableEq, Repr

/-- Modelled from the spec: the pingback/callback URL handed to the
transplant service.  `Landing.create` reads it from the `PINGBACK_URL`
configuration entry, but no code under src/ constructs that entry; per
the spec (section 4.3 step 5) and the tests
(tests/test_landings.py, `<host>/landings/1/update`) it embeds the
persisted landing's local id. -/
def pingback_url (host : String) (landing_id : Nat) : String :=
  host ++ "/landings/" ++ toString landing_id ++ "/update"

deriving instance DecidableEq for Except

/-- Result of one `Landing.create` call: the returned landing or raised
exception, the final database state, the in-memory patch object, and the
ordered trace of external effects. -/
structure CreateResult where
  outcome : Except CreateError Landing
  store : Store
  patch : Option PatchRec
  trace : List Event
deriving DecidableEq, Repr

/-- The diff-selection validation of `Landing.create`
(landoapi/models/landing.py lines 118-142).  Note the source tests
`if override_diff_id:` — a Python truthiness test, so `None` and `0`
both select the no-override branch. -/
def validate_diff_selection (diff_id : Nat) (active_id : Option Nat)
    (override_diff_id : Option Nat) : Option CreateError :=
  if override_diff_id.getD 0 ≠ 0 then
    if some (override_diff_id.getD 0) ≠ active_id then
      some (.overrideDiff diff_id active_id (override_diff_id.getD 0))
    else none
  else if some diff_id ≠ active_id then
    some (.inactiveDiff diff_id active_id)
  else none

/-- `Landing.create` (landoapi/models/landing.py lines 82-178).
`trans_land_result` is the job id returned by `TransplantClient.land`
(0 models the empty/falsy failure answer). -/
def Landing.create (phab : PhabEnv) (trans_land_result : Nat) (cfg : Config)
    (store : Store) (revision_id diff_id : Nat)
    (override_diff_id : Option Nat) (now : Nat) : CreateResult :=
  match phab.get_revision revision_id with
  | none => ⟨.error (.revisionNotFound revision_id), store, none, []⟩
  | some revision =>
    let active_id := phab.diff_phid_to_id revision.activeDiffPHID
    match validate_diff_selection diff_id active_id override_diff_id with
    | some e => ⟨.error e, store, none, []⟩
    | none =>
      let landing0 := Landing.init revision_id diff_id active_id now
      let saved := store.saveLanding landing0 now
      let landing1 := saved.1
      let store1 := saved.2
      let lid := landing1.id.getD 0
      let trace1 : List Event := [.saveLanding lid]
      match phab.get_rawdiff diff_id with
      | none =>
          ⟨.error (.diffNotFound diff_id), store1,
            some ⟨landing1.id, revision.id, diff_id, none, none⟩, trace1⟩
      | some rawdiff =>
        let author := phab.get_revision_author revision.authorPHID
        let hgpatch := phab.build_patch rawdiff author revision
        let uploaded := upload_patch_to_s3 hgpatch lid revision.id diff_id
          cfg.bucket
        let patch : PatchRec :=
          ⟨landing1.id, revision.id, diff_id, none, some uploaded.1⟩
        let repo_uri := phab.get_revision_repo_uri revision
        let callback := pingback_url cfg.pingback_host lid
        let trace3 := trace1 ++ [.s3Upload uploaded.2,
          .transLand "ldap_username@example.com" [uploaded.1] repo_uri callback]
        if trans_land_result = 0 then
          ⟨.error .landingNotCreated, store1, some patch, trace3⟩
        else
          let landing2 := { landing1 with
            request_id := some trans_land_result,
            status := LandingStatus.job_submitted }
          let saved2 := store1.saveLanding landing2 now
          ⟨.ok saved2.1, saved2.2, some patch, trace3⟩

/-- The parsed body of a pingback POST
(api/landings.py `update` docstring): `error_msg` and `result` are
optional and default to the empty string. -/
structure PingbackData where
  request_id : Nat
  landed : Bool
  error_msg : Option String
  result : Option String
deriving DecidableEq, Repr

/-- Configuration read by the pingback endpoint. -/
structure UpdateConfig where
  pingback_enabled : String
  transplant_api_key : String

/-- The pingback endpoint `update` (landoapi/api/landings.py lines
242-305): refuse with 403 unless pingbacks are enabled (`'y'`) and the
`API-Key` header (missing header reads as `''`) equals the configured
transplant key under `hmac.compare_digest` (constant-time equality);
then look the landing up by its unique Transplant request id (404 when
absent), apply the payload via `Landing.set_status` and save.  Returns
the HTTP status code and the resulting store. -/
def update (cfg : UpdateConfig) (api_key_header : Option String)
    (data : PingbackData) (store : Store) (now : Nat) : Nat × Store :=
  if cfg.pingback_enabled ≠ "y" then (403, store)
  else if api_key_header.getD "" ≠ cfg.transplant_api_key then (403, store)
  else
    match store.landings.find?
        (fun l => l.request_id == some data.request_id) with
    | none => (404, store)
    | some landing =>
      let landing1 := landing.set_status data.landed (data.error_msg.getD "")
        (data.result.getD "")
      let saved := store.saveLanding landing1 now
      (200, saved.2)

/-- The per-landing mutations the system ever performs after
construction: the successful-submission step inside `Landing.create`
(which requires the fresh `aborted` object) and a pingback application
(`set_status`, which checks nothing). -/
inductive Step : Landing → Landing → Prop
  | submit (l : Landing) (rid : Nat) (h : l.status = LandingStatus.aborted) :
      Step l { l with request_id := some rid,
                      status := LandingStatus.job_submitted }
  | pingback (l : Landing) (landed : Bool) (e r : String) :
      Step l (l.set_status landed e r)

/-- Phase of a status in the lifecycle order
`aborted/created < submitted < terminal`. -/
def statusRank : LandingStatus → Nat
  | LandingStatus.aborted => 0
  | LandingStatus.job_submitted => 1
  | LandingStatus.job_landed => 2
  | LandingStatus.job_failed => 2

/-- Revision statuses (enum `Statuses` in landoapi/phabricator.py). -/
inductive Statuses
  | NEEDS_REVIEW
  | NEEDS_REVISION
  | APPROVED
  | CLOSED
  | ABANDONED
  | CHANGES_PLANNED
deriving DecidableEq, Repr

/-- `CLOSED_STATUSES` (landoapi/phabricator.py line 22). -/
def CLOSED_STATUSES : List Statuses := [Statuses.CLOSED, Statuses.ABANDONED]

/-- `OPEN_STATUSES` (landoapi/phabricator.py lines 23-26). -/
def OPEN_STATUSES : List Statuses :=
  [Statuses.NEEDS_REVIEW, Statuses.NEEDS_REVISION, Statuses.APPROVED,
   Statuses.CHANGES_PLANNED]

/-- The recursion pattern of `get_dependency_tree`
(landoapi/phabricator.py lines 351-371) applied to a list of parent ids:
for each parent `p`, yield `p` and then, recursively, `p`'s own
dependency tree.  `g x` is the id list held in revision `x`'s
`'phabricator:depends-on'` auxiliary field.  The Python generator has no
visited set, so its recursion depth is bounded only by the graph itself;
`fuel` makes that explicit: `none` means the recursion did not finish
within `fuel` nested calls (for a cyclic graph this holds for every
fuel, which is the embedding of non-termination). -/
def depForestF (g : Nat → List Nat) : Nat → List Nat → Option (List Nat)
  | _, [] => some []
  | 0, _ :: _ => none
  | fuel + 1, p :: ps =>
    match depForestF g fuel (g p), depForestF g (fuel + 1) ps with
    | some t, some rest => some (p :: (t ++ rest))
    | _, _ => none
termination_by fuel l => (fuel, l.length)

/-- `get_dependency_tree(revision)` with the generator fully evaluated:
the list of revision ids yielded for revision `r`, or `none` when the
recursion does not finish within `fuel` nested calls. -/
def depTreeF (g : Nat → List Nat) (fuel r : Nat) : Option (List Nat) :=
  depForestF g fuel (g r)

/-- `get_first_open_parent_revision` (landoapi/phabricator.py lines
373-386): scan the dependency tree and return the first revision whose
status is open (inner `Option`), or `none` (outer) when the underlying
walk does not terminate within `fuel`. -/
def get_first_open_parent_revision (g : Nat → List Nat)
    (status : Nat → Statuses) (fuel r : Nat) : Option (Option Nat) :=
  (depTreeF g fuel r).map
    (fun deps => deps.find? (fun d => OPEN_STATUSES.contains (status d)))

/-- Reachability along the `'phabricator:depends-on'` edges, starting
from (and including) `r`. -/
inductive Reach (g : Nat → List Nat) (r : Nat) : Nat → Prop
  | refl : Reach g r r
  | step (x p : Nat) : Reach g r x → p ∈ g x → Reach g r p

/-- A one-node graph whose only revision depends on itself. -/
def selfLoopGraph : Nat → List Nat := fun _ => [0]

/-- Modelled from the spec: the error taxonomy of the create flow with
dependency-stack assembly (spec sections 4.2-4.3).  The stack-assembly
step of `Landing.create` (raising `MultipleParentsDetected`) is absent
from src/ — the `models/landing.py` present is an older version than the
one `api/landings.py` was written against — so it is modelled here from
the spec's words. -/
inductive StackCreateError
  | inactiveDiff (diff_id active_diff_id : Nat)
  | overrideDiff (diff_id active_diff_id override_diff_id : Nat)
  | multipleParentsDetected (revision_id : Nat)
deriving DecidableEq, Repr

/-- Modelled from the spec: `assemble_stack(revision, diff_id)`
(spec section 4.2) walks the immediate dependencies transitively; a
revision with no dependency yields a one-entry stack, a single
dependency is assembled first (oldest ancestor first, each entry
carrying that ancestor's active diff id), and a revision with more than
one immediate dependency fails the whole operation with
`MultipleParentsDetected` naming that revision.  The walk itself recurses
exactly like `get_dependency_tree`, so it carries the same explicit
`fuel`; `none` again means the walk did not finish. -/
def assemble_stack (g : Nat → List Nat) (activeDiff : Nat → Nat) :
    Nat → Nat → Option (Except Nat (List (Nat × Nat)))
  | 0, _ => none
  | fuel + 1, r =>
    match g r with
    | [] => some (Except.ok [(r, activeDiff r)])
    | [p] =>
      (assemble_stack g activeDiff fuel p).map
        (fun res => res.map (fun stack => stack ++ [(r, activeDiff r)]))
    | _ => some (Except.error r)

/-- Modelled from the spec: `create` with dependency-stack assembly
(spec section 4.3 steps 3-4): validate the diff selection exactly as the
src `Landing.create` does (including the truthiness test on the
override), then assemble the stack; any `MultipleParentsDetected`
failure aborts the call before persistence and submission.  On success
the topmost entry carries the caller-supplied diff id instead of the
active one.  The returned stack is what would be persisted and
submitted; an `Except.error` therefore means the landing never reaches
submission. -/
def create_with_stack (g : Nat → List Nat) (activeDiff : Nat → Nat)
    (revision_id diff_id : Nat) (override_diff_id : Option Nat)
    (fuel : Nat) : Option (Except StackCreateError (List (Nat × Nat))) :=
  let active_id := activeDiff revision_id
  let assembled : Option (Except StackCreateError (List (Nat × Nat))) :=
    (assemble_stack g activeDiff fuel revision_id).map
      (fun res =>
        (res.mapError StackCreateError.multipleParentsDetected).map
          (fun stack => stack.dropLast ++ [(revision_id, diff_id)]))
  if override_diff_id.getD 0 ≠ 0 then
    if override_diff_id.getD 0 ≠ active_id then
      some (Except.error
        (StackCreateError.overrideDiff diff_id active_id
          (override_diff_id.getD 0)))
    else assembled
  else if diff_id ≠ active_id then
    some (Except.error (StackCreateError.inactiveDiff diff_id active_id))
  else assembled

/-- A fork at depth `k`: following the unique-dependency chain from `r`
for `k` steps reaches the revision `f`, which has two or more immediate
dependencies. -/
inductive ForkAt (g : Nat → List Nat) : Nat → Nat → Nat → Prop
  | here (r : Nat) (h : 2 ≤ (g r).length) : ForkAt g r r 0
  | there (r p f k : Nat) (h : g r = [p]) (ht : ForkAt g p f k) :
      ForkAt g r f (k + 1)

/-- Concrete fixture: revision D1, whose active diff PHID resolves to
diff 5. -/
def rev1 : Revision := ⟨1, "PHID-DIFF-5", "PHID-USER-1"⟩

/-- Concrete Phabricator environment: only revision 1 exists; its active
diff is 5; raw diffs exist for diffs 3 and 5. -/
def env1 : PhabEnv :=
  { get_revision := fun n => if n = 1 then some rev1 else none,
    diff_phid_to_id := fun s => if s = "PHID-DIFF-5" then some 5 else none,
    get_rawdiff := fun d =>
      if d = 3 ∨ d = 5 then some "diff --git a/f b/f" else none,
    get_revision_author := fun _ => "author",
    build_patch := fun raw author _ => author ++ ":" ++ raw,
    get_revision_repo_uri := fun _ => "https://hg.test/repo" }

/-- Concrete deployment configuration. -/
def cfg1 : Config := ⟨"test-bucket", "https://lando.test"⟩

/-- An empty database whose next landing primary key is 1. -/
def store0 : Store := ⟨[], 1⟩

/-- The landing returned by a successful
`create(revision 1, diff 5)` against `env1` from `store0` at time 100,
with Transplant answering job id 7. -/
def landingOk : Landing :=
  ⟨some 1, some 7, 1, 5, some 5, LandingStatus.job_submitted, "", "", 100, 100⟩

/-- A freshly constructed, persisted but not yet submitted landing. -/
def landingA : Landing :=
  ⟨some 1, none, 1, 5, some 5, LandingStatus.aborted, "", "", 100, 100⟩

/-- `landingA` after the successful-submission step with job id 7. -/
def landingASubmitted : Landing :=
  { landingA with request_id := some 7,
                  status := LandingStatus.job_submitted }

/-- A submitted landing with Transplant job id 7. -/
def landingSubmitted : Landing :=
  ⟨some 1, some 7, 1, 5, some 5, LandingStatus.job_submitted, "", "", 100, 100⟩

/-- `landingSubmitted` after a pingback reporting a successful landing. -/
def landingLanded : Landing := landingSubmitted.set_status true "" "abc123"

/-- A database containing exactly `landingSubmitted`. -/
def store1 : Store := ⟨[landingSubmitted], 2⟩

/-- A pingback payload reporting job 7 landed at commit `abc123`,
with no `error_msg` field. -/
def pingOk : PingbackData := ⟨7, true, none, some "abc123"⟩

/-- Pingback endpoint configuration with pingbacks enabled. -/
def cfgU : UpdateConfig := ⟨"y", "secret"⟩

/-- Concrete dependency graph of the spec scenario: revision 4 depends
on revision 3, which depends on both 1 and 2. -/
def g3 : Nat → List Nat :=
  fun n => if n = 4 then [3] else if n = 3 then [1, 2] else []

/-- Concrete linear dependency graph: revision 1 depends on revision 2
and nothing else has dependencies. -/
def g2 : Nat → List Nat := fun n => if n = 1 then [2] else []

/-- A rank function decreasing along the edges of `g2`. -/
def rank2 : Nat → Nat := fun n => if n = 1 then 1 else 0

/-- A status assignment under which every revision is closed. -/
def status2 : Nat → Statuses := fun _ => Statuses.CLOSED

/-- C9: the blob-storage key (and hence the returned `s3://` address)
computed by `_upload_patch_to_s3` is a deterministic function of the
triple `(landing_request_id, revision_id, diff_id)` (given the
deployment's bucket): two uploads with the same triple yield the same
key and address whatever their patch contents, and the key is exactly
`L<landing>_D<revision>_<diff>.patch`. -/
theorem upload_key_deterministic (p1 p2 : String) (lid rid did : Nat)
    (b : String) :
    (upload_patch_to_s3 p1 lid rid did b).1 =
      (upload_patch_to_s3 p2 lid rid did b).1 ∧
    (upload_patch_to_s3 p1 lid rid did b).2.key =
      (upload_patch_to_s3 p2 lid rid did b).2.key ∧
    (upload_patch_to_s3 p1 lid rid did b).2.key = patch_name lid rid did ∧
    (upload_patch_to_s3 p1 lid rid did b).1 =
      "s3://" ++ b ++ "/" ++ patch_name lid rid did :=
  ⟨rfl, rfl, rfl, rfl⟩

/-- C5: applying a pingback payload with `landed = True`, result text
`R` and no error text to a submitted landing moves it to `landed` with
`result = R` and `error = ''` taken verbatim from the payload, and
`set_status` (the pingback mutation) changes no other field. -/
theorem pingback_landed_result_and_frame (l : Landing) (d : PingbackData)
    (R : String) (hs : l.status = LandingStatus.job_submitted)
    (hl : d.landed = true) (he : d.error_msg = none)
    (hr : d.result = some R) :
    (l.set_status d.landed (d.error_msg.getD "") (d.result.getD "")).status =
      LandingStatus.job_landed ∧
    (l.set_status d.landed (d.error_msg.getD "") (d.result.getD "")).result =
      R ∧
    (l.set_status d.landed (d.error_msg.getD "") (d.result.getD "")).error =
      "" ∧
    (l.set_status d.landed (d.error_msg.getD "") (d.result.getD "")).id =
      l.id ∧
    (l.set_status d.landed (d.error_msg.getD "")
      (d.result.getD "")).request_id = l.request_id ∧
    (l.set_status d.landed (d.error_msg.getD "")
      (d.result.getD "")).revision_id = l.revision_id ∧
    (l.set_status d.landed (d.error_msg.getD "") (d.result.getD "")).diff_id =
      l.diff_id ∧
    (l.set_status d.landed (d.error_msg.getD "")
      (d.result.getD "")).active_diff_id = l.active_diff_id ∧
    (l.set_status d.landed (d.error_msg.getD "")
      (d.result.getD "")).created_at = l.created_at ∧
    (l.set_status d.landed (d.error_msg.getD "")
      (d.result.getD "")).updated_at = l.updated_at := by
  simp [Landing.set_status, hl, he, hr]

/-- Witness for C5 at a concrete submitted landing and the concrete
payload `pingOk`. -/
theorem pingback_landed_result_and_frame_witness :
    (landingSubmitted.set_status pingOk.landed (pingOk.error_msg.getD "")
      (pingOk.result.getD "")).status = LandingStatus.job_landed ∧
    (landingSubmitted.set_status pingOk.landed (pingOk.error_msg.getD "")
      (pingOk.result.getD "")).result = "abc123" ∧
    (landingSubmitted.set_status pingOk.landed (pingOk.error_msg.getD "")
      (pingOk.result.getD "")).error = "" ∧
    (landingSubmitted.set_status pingOk.landed (pingOk.error_msg.getD "")
      (pingOk.result.getD "")).id = landingSubmitted.id ∧
    (landingSubmitted.set_status pingOk.landed (pingOk.error_msg.getD "")
      (pingOk.result.getD "")).request_id = landingSubmitted.request_id ∧
    (landingSubmitted.set_status pingOk.landed (pingOk.error_msg.getD "")
      (pingOk.result.getD "")).revision_id = landingSubmitted.revision_id ∧
    (landingSubmitted.set_status pingOk.landed (pingOk.error_msg.getD "")
      (pingOk.result.getD "")).diff_id = landingSubmitted.diff_id ∧
    (landingSubmitted.set_status pingOk.landed (pingOk.error_msg.getD "")
      (pingOk.result.getD "")).active_diff_id =
        landingSubmitted.active_diff_id ∧
    (landingSubmitted.set_status pingOk.landed (pingOk.error_msg.getD "")
      (pingOk.result.getD "")).created_at = landingSubmitted.created_at ∧
    (landingSubmitted.set_status pingOk.landed (pingOk.error_msg.getD "")
      (pingOk.result.getD "")).updated_at = landingSubmitted.updated_at :=
  pingback_landed_result_and_frame landingSubmitted pingOk "abc123" rfl rfl
    rfl rfl

/-- C6: the pingback endpoint answers 403 and leaves the store
untouched whenever pingback processing is disabled or the presented
`API-Key` header does not equal the configured transplant key — for
every payload and store, in particular when the job id in the payload
identifies an existing submitted landing. -/
theorem update_unauthorized_no_mutation (cfg : UpdateConfig)
    (key : Option String) (d : PingbackData) (s : Store) (now : Nat)
    (h : cfg.pingback_enabled ≠ "y" ∨
      key.getD "" ≠ cfg.transplant_api_key) :
    update cfg key d s now = (403, s) := by
  unfold update
  rcases h with h | h
  · simp [h]
  · by_cases he : cfg.pingback_enabled = "y" <;> simp [he, h]

/-- Witness for C6: with pingbacks enabled, a wrong key is refused with
403 and no mutation, although `store1` holds a submitted landing whose
job id matches the payload. -/
theorem update_unauthorized_no_mutation_witness :
    update cfgU (some "wrong-key") pingOk store1 200 = (403, store1) :=
  update_unauthorized_no_mutation cfgU (some "wrong-key") pingOk store1 200
    (Or.inr (by decide))

/-- C4 counterexample: the claim that `landed` and `failed` are terminal
fails on the code.  `landingLanded` (reached from a submitted landing by
a successful pingback) has status `landed`, yet applying a further
pingback with `landed = False` — which `set_status` accepts without any
precondition — moves it to `failed`. -/
theorem status_terminal_counterexample :
    landingLanded.status = LandingStatus.job_landed ∧
    (landingLanded.set_status false "stale" "").status =
      LandingStatus.job_failed :=
  ⟨rfl, rfl⟩

/-- C4 amended: the status phase (`aborted/created` < `submitted` <
`landed`/`failed`) never decreases under any per-landing operation
(the submission step of `create`, or a pingback `set_status`), so a
status never returns to `submitted` or `aborted`; but the two terminal
statuses are not individually protected — a later pingback may
overwrite `landed` with `failed` or vice versa. -/
theorem status_rank_monotone (l l1 : Landing) (h : Step l l1) :
    statusRank l.status ≤ statusRank l1.status := by
  cases h with
  | submit rid hst => rw [hst]; exact Nat.zero_le _
  | pingback landed e r =>
    cases hl : l.status <;> cases landed <;>
      simp [Landing.set_status, statusRank, hl]

/-- Witness for C4's amended theorem: the submission step on the
concrete fresh landing `landingA`. -/
theorem status_rank_monotone_witness :
    statusRank landingA.status ≤ statusRank landingASubmitted.status :=
  status_rank_monotone landingA landingASubmitted
    (Step.submit landingA 7 rfl)

/-- C1 counterexample: a supplied `override_diff_id` of 0 falsifies the
claimed case split.  Against `env1` (active diff 5), a create call for
diff 3 with `override_diff_id = 0` is claimed to fail with the override
mismatch error (override supplied and different from the active id),
but the source's `if override_diff_id:` truthiness test treats 0 like
an absent override and the call fails with `InactiveDiff(3, 5)`
instead. -/
theorem zero_override_counterexample :
    (Landing.create env1 7 cfg1 store0 1 3 (some 0) 100).outcome =
      Except.error (CreateError.inactiveDiff 3 (some 5)) := by decide

/-- C1 amended: for a create call on an existing revision whose active
diff id is `A` — writing "truthy override" for a supplied, non-zero
`override_diff_id`, as tested by the source's `if override_diff_id:` —
a truthy override different from `A` fails with the override mismatch
error; an absent or falsy override with `diff_id ≠ A` fails with
`InactiveDiff`; and otherwise validation passes and create proceeds to
persistence and patch assembly (it saves the landing row). -/
theorem create_validation_amended (phab : PhabEnv) (tr : Nat) (cfg : Config)
    (s : Store) (rid did : Nat) (ov : Option Nat) (now : Nat)
    (rev : Revision) (A : Nat)
    (hrev : phab.get_revision rid = some rev)
    (hact : phab.diff_phid_to_id rev.activeDiffPHID = some A) :
    (ov.getD 0 ≠ 0 → ov.getD 0 ≠ A →
      (Landing.create phab tr cfg s rid did ov now).outcome =
        Except.error (CreateError.overrideDiff did (some A) (ov.getD 0))) ∧
    (ov.getD 0 = 0 → did ≠ A →
      (Landing.create phab tr cfg s rid did ov now).outcome =
        Except.error (CreateError.inactiveDiff did (some A))) ∧
    ((ov.getD 0 ≠ 0 ∧ ov.getD 0 = A) ∨ (ov.getD 0 = 0 ∧ did = A) →
      Event.saveLanding s.next_id ∈
        (Landing.create phab tr cfg s rid did ov now).trace) := by
  refine ⟨?_, ?_, ?_⟩
  · intro h1 h2
    simp [Landing.create, hrev, hact, validate_diff_selection, h1, h2]
  · intro h1 h2
    simp [Landing.create, hrev, hact, validate_diff_selection, h1, h2]
  · intro hv
    have hval : validate_diff_selection did (some A) ov = none := by
      rcases hv with ⟨h1, h2⟩ | ⟨h1, h2⟩
      · rw [h2] at h1
        simp [validate_diff_selection, h2, h1]
      · simp [validate_diff_selection, h1, h2]
    rcases hraw : phab.get_rawdiff did with _ | raw <;>
      by_cases ht : tr = 0 <;>
        simp [Landing.create, hrev, hact, hval, hraw, ht,
          Store.saveLanding, Landing.init]

/-- Witness for C1's amended theorem: create for diff 3 (active diff 5)
with no override against `env1` fails with `InactiveDiff(3, 5)`. -/
theorem create_validation_amended_witness :
    (((none : Option Nat).getD 0 ≠ 0 → (none : Option Nat).getD 0 ≠ 5 →
      (Landing.create env1 7 cfg1 store0 1 3 none 100).outcome =
        Except.error
          (CreateError.overrideDiff 3 (some 5)
            ((none : Option Nat).getD 0)))) ∧
    (((none : Option Nat).getD 0 = 0 → 3 ≠ 5 →
      (Landing.create env1 7 cfg1 store0 1 3 none 100).outcome =
        Except.error (CreateError.inactiveDiff 3 (some 5)))) ∧
    ((((none : Option Nat).getD 0 ≠ 0 ∧ (none : Option Nat).getD 0 = 5) ∨
        ((none : Option Nat).getD 0 = 0 ∧ 3 = 5)) →
      Event.saveLanding store0.next_id ∈
        (Landing.create env1 7 cfg1 store0 1 3 none 100).trace) :=
  create_validation_amended env1 7 cfg1 store0 1 3 none 100 rev1 5 rfl rfl

/-- Helper: when the diff selection is admissible (truthy override equal
to the active id, or no/falsy override with the active diff), the
validation step reports no error. -/
theorem validate_pass_none (did A : Nat) (ov : Option Nat)
    (hv : (ov.getD 0 ≠ 0 ∧ ov.getD 0 = A) ∨ (ov.getD 0 = 0 ∧ did = A)) :
    validate_diff_selection did (some A) ov = none := by
  rcases hv with ⟨h1, h2⟩ | ⟨h1, h2⟩
  · rw [h2] at h1
    simp [validate_diff_selection, h2, h1]
  · simp [validate_diff_selection, h1, h2]

/-- C2 counterexample: the claim that a failed submission leaves the
store as if the create call never ran fails on the code.  Against
`env1` with Transplant answering a falsy job id (0), create raises
`LandingNotCreatedException` but the landing row persisted before
submission stays in the database (with status `aborted`); nothing is
deleted. -/
theorem failed_submission_retained_counterexample :
    (Landing.create env1 0 cfg1 store0 1 5 none 100).outcome =
      Except.error CreateError.landingNotCreated ∧
    (Landing.create env1 0 cfg1 store0 1 5 none 100).store.landings =
      [⟨some 1, none, 1, 5, some 5, LandingStatus.aborted, "", "", 100,
        100⟩] := by decide

/-- C2 amended: when the transplant submission returns an empty/falsy
job id, create fails with `LandingNotCreatedException`
(`SubmissionFailed`), and the persisted landing is retained — the final
store is the initial one extended with the new row, still in status
`aborted` and with no job id, distinguishable from successfully
submitted requests.  (The S3 patch object written before submission is
likewise not deleted.) -/
theorem create_failed_submission_retains_landing (phab : PhabEnv)
    (cfg : Config) (s : Store) (rid did : Nat) (ov : Option Nat)
    (now : Nat) (rev : Revision) (A : Nat) (raw : String)
    (hrev : phab.get_revision rid = some rev)
    (hact : phab.diff_phid_to_id rev.activeDiffPHID = some A)
    (hv : (ov.getD 0 ≠ 0 ∧ ov.getD 0 = A) ∨ (ov.getD 0 = 0 ∧ did = A))
    (hraw : phab.get_rawdiff did = some raw) :
    (Landing.create phab 0 cfg s rid did ov now).outcome =
      Except.error CreateError.landingNotCreated ∧
    (Landing.create phab 0 cfg s rid did ov now).store.landings =
      s.landings ++
        [⟨some s.next_id, none, rid, did, some A, LandingStatus.aborted,
          "", "", now, now⟩] := by
  have hval := validate_pass_none did A ov hv
  simp [Landing.create, hrev, hact, hval, hraw, Store.saveLanding,
    Landing.init]

/-- Witness for C2's amended theorem at the concrete environment
`env1`. -/
theorem create_failed_submission_retains_landing_witness :
    (Landing.create env1 0 cfg1 store0 1 5 none 100).outcome =
      Except.error CreateError.landingNotCreated ∧
    (Landing.create env1 0 cfg1 store0 1 5 none 100).store.landings =
      store0.landings ++
        [⟨some store0.next_id, none, 1, 5, some 5, LandingStatus.aborted,
          "", "", 100, 100⟩] :=
  create_failed_submission_retains_landing env1 cfg1 store0 1 5 none 100
    rev1 5 "diff --git a/f b/f" rfl rfl (Or.inr ⟨rfl, rfl⟩) (by decide)

/-- C8 counterexample: the claim that the active-diff id is recorded
only when an override occurred fails on the code.  A create call that
lands the currently active diff 5 with no override succeeds, and the
stored record nevertheless carries `active_diff_id = 5` — the source
passes `active_diff_id=active_id` unconditionally. -/
theorem active_diff_recorded_counterexample :
    (Landing.create env1 7 cfg1 store0 1 5 none 100).outcome =
      Except.ok landingOk ∧
    landingOk.active_diff_id = some 5 := by decide

/-- C8 amended: every successfully created landing records the
active-diff id — `active_diff_id` is always set to the diff id that was
active at request time; when no (truthy) override was supplied it
equals the landed `diff_id`, so the two differ exactly when an override
occurred. -/
theorem create_always_records_active_diff (phab : PhabEnv) (tr : Nat)
    (cfg : Config) (s : Store) (rid did : Nat) (ov : Option Nat)
    (now : Nat) (rev : Revision) (A : Nat)
    (hrev : phab.get_revision rid = some rev)
    (hact : phab.diff_phid_to_id rev.activeDiffPHID = some A) :
    ∀ l, (Landing.create phab tr cfg s rid did ov now).outcome =
        Except.ok l →
      l.active_diff_id = some A ∧ l.diff_id = did ∧
      (ov.getD 0 = 0 → l.active_diff_id = some l.diff_id) := by
  intro l hl
  rcases hvv : validate_diff_selection did (some A) ov with _ | e
  · rcases hraw : phab.get_rawdiff did with _ | raw
    · simp [Landing.create, hrev, hact, hvv, hraw] at hl
    · by_cases ht : tr = 0
      · simp [Landing.create, hrev, hact, hvv, hraw, ht] at hl
      · simp [Landing.create, hrev, hact, hvv, hraw, ht, Store.saveLanding,
          Landing.init] at hl
        have hda : ov.getD 0 = 0 → did = A := by
          intro h0
          simp [validate_diff_selection, h0] at hvv
          exact hvv
        subst hl
        refine ⟨rfl, rfl, fun h0 => ?_⟩
        rw [hda h0]
  · simp [Landing.create, hrev, hact, hvv] at hl

/-- Witness for C8's amended theorem: the concrete successful create
against `env1` records `active_diff_id = 5`, equal to the landed
diff. -/
theorem create_always_records_active_diff_witness :
    landingOk.active_diff_id = some 5 ∧ landingOk.diff_id = 5 ∧
    ((none : Option Nat).getD 0 = 0 →
      landingOk.active_diff_id = some landingOk.diff_id) :=
  create_always_records_active_diff env1 7 cfg1 store0 1 5 none 100 rev1 5
    rfl rfl landingOk (by decide)

/-- C7: within every create call, whenever the transplant service is
contacted (a `transLand` event appears in the trace), a `saveLanding`
event for some id `i` strictly precedes it, and the callback URL in the
submission payload is `pingback_url` applied to that same persisted
id. -/
theorem create_persists_before_submission (phab : PhabEnv) (tr : Nat)
    (cfg : Config) (s : Store) (rid did : Nat) (ov : Option Nat)
    (now : Nat) (u : String) (urls : List String) (repo cb : String)
    (hmem : Event.transLand u urls repo cb ∈
      (Landing.create phab tr cfg s rid did ov now).trace) :
    ∃ i pre suf,
      (Landing.create phab tr cfg s rid did ov now).trace =
        pre ++ Event.transLand u urls repo cb :: suf ∧
      Event.saveLanding i ∈ pre ∧
      cb = pingback_url cfg.pingback_host i := by
  rcases hrev : phab.get_revision rid with _ | rev
  · simp [Landing.create, hrev] at hmem
  · rcases hvv : validate_diff_selection did
        (phab.diff_phid_to_id rev.activeDiffPHID) ov with _ | e
    · rcases hraw : phab.get_rawdiff did with _ | raw
      · simp [Landing.create, hrev, hvv, hraw, Store.saveLanding,
          Landing.init] at hmem
      · rcases hup : upload_patch_to_s3
            (phab.build_patch raw (phab.get_revision_author rev.authorPHID)
              rev) s.next_id rev.id did cfg.bucket with ⟨url, obj⟩
        have hshape : (Landing.create phab tr cfg s rid did ov now).trace =
            [Event.saveLanding s.next_id, Event.s3Upload obj,
             Event.transLand "ldap_username@example.com" [url]
               (phab.get_revision_repo_uri rev)
               (pingback_url cfg.pingback_host s.next_id)] := by
          by_cases ht : tr = 0 <;>
            simp [Landing.create, hrev, hvv, hraw, ht, hup,
              Store.saveLanding, Landing.init]
        rw [hshape] at hmem
        simp at hmem
        obtain ⟨hu, hurls, hrepo, hcb⟩ := hmem
        subst hu hurls hrepo hcb
        rw [hshape]
        exact ⟨s.next_id,
          [Event.saveLanding s.next_id, Event.s3Upload obj], [], rfl,
          by simp, rfl⟩
    · simp [Landing.create, hrev, hvv] at hmem

/-- Witness for C7 at the concrete successful create against `env1`:
the submission event carries the callback URL embedding the persisted
landing id 1, and the save event precedes it. -/
theorem create_persists_before_submission_witness :
    ∃ i pre suf,
      (Landing.create env1 7 cfg1 store0 1 5 none 100).trace =
        pre ++ Event.transLand "ldap_username@example.com"
          ["s3://test-bucket/L1_D1_5.patch"] "https://hg.test/repo"
          "https://lando.test/landings/1/update" :: suf ∧
      Event.saveLanding i ∈ pre ∧
      "https://lando.test/landings/1/update" =
        pingback_url cfg1.pingback_host i :=
  create_persists_before_submission env1 7 cfg1 store0 1 5 none 100
    "ldap_username@example.com" ["s3://test-bucket/L1_D1_5.patch"]
    "https://hg.test/repo" "https://lando.test/landings/1/update"
    (by decide)

/-- Helper: the revision a fork points at really has at least two
immediate dependencies. -/
theorem forkAt_two_le (g : Nat → List Nat) (r f k : Nat)
    (h : ForkAt g r f k) : 2 ≤ (g f).length := by
  induction h with
  | here r h => exact h
  | there r p f k hgr ht ih => exact ih

/-- Helper: the stack walk reports the forking revision whenever the
fork lies within the available fuel. -/
theorem assemble_stack_fork (g : Nat → List Nat) (a : Nat → Nat)
    (r f k : Nat) (h : ForkAt g r f k) :
    ∀ fuel, k < fuel → assemble_stack g a fuel r = some (Except.error f) := by
  induction h with
  | here r h =>
    intro fuel hf
    obtain ⟨m, rfl⟩ : ∃ m, fuel = m + 1 := ⟨fuel - 1, by omega⟩
    rcases hg : g r with _ | ⟨p, _ | ⟨q, rest⟩⟩
    · rw [hg] at h
      simp at h
    · rw [hg] at h
      simp at h
    · simp [assemble_stack, hg]
  | there r p f k hgr ht ih =>
    intro fuel hf
    obtain ⟨m, rfl⟩ : ∃ m, fuel = m + 1 := ⟨fuel - 1, by omega⟩
    have hm := ih m (by omega)
    simp [assemble_stack, hgr, hm, Except.map]

/-- C3: for every admissible diff selection, when the dependency stack
of the requested revision contains a revision with two or more
immediate dependencies (a fork, at any depth reached by the walk),
create fails with `MultipleParentsDetected` naming that forking
revision, so the landing never reaches persistence or submission. -/
theorem create_with_stack_multiple_parents (g : Nat → List Nat)
    (a : Nat → Nat) (r did : Nat) (ov : Option Nat) (fuel f k : Nat)
    (hfork : ForkAt g r f k) (hfuel : k < fuel)
    (hv : (ov.getD 0 ≠ 0 ∧ ov.getD 0 = a r) ∨
      (ov.getD 0 = 0 ∧ did = a r)) :
    create_with_stack g a r did ov fuel =
      some (Except.error (StackCreateError.multipleParentsDetected f)) ∧
    2 ≤ (g f).length := by
  have has := assemble_stack_fork g a r f k hfork fuel hfuel
  constructor
  · unfold create_with_stack
    rcases hv with ⟨h1, h2⟩ | ⟨h1, h2⟩
    · rw [h2] at h1
      simp [h2, h1, has, Except.mapError, Except.map]
    · simp [h1, h2, has, Except.mapError, Except.map]
  · exact forkAt_two_le g r f k hfork

/-- Witness for C3 at the spec's own scenario: revision 4 depends on
revision 3, which depends on both 1 and 2; creating revision 4 with its
active diff fails naming revision 3. -/
theorem create_with_stack_multiple_parents_witness :
    create_with_stack g3 (fun _ => 1) 4 1 none 2 =
      some (Except.error (StackCreateError.multipleParentsDetected 3)) ∧
    2 ≤ (g3 3).length :=
  create_with_stack_multiple_parents g3 (fun _ => 1) 4 1 none 2 3 1
    (ForkAt.there 4 3 3 0 (by decide) (ForkAt.here 3 (by decide)))
    (by decide) (Or.inr ⟨rfl, rfl⟩)

/-- Helper: on a subgraph whose reachable nodes admit a rank strictly
decreasing along dependency edges, the dependency walk is independent
of the fuel once the fuel reaches the rank bound, and it produces a
value. -/
theorem depForestF_stable (g : Nat → List Nat) (r0 : Nat)
    (rank : Nat → Nat)
    (hacyc : ∀ x, Reach g r0 x → ∀ p ∈ g x, rank p < rank x) :
    ∀ N, ∀ ps, (∀ p ∈ ps, Reach g r0 p ∧ rank p < N) →
      (depForestF g N ps).isSome ∧
      ∀ f, N ≤ f → depForestF g f ps = depForestF g N ps := by
  intro N
  induction N using Nat.strong_induction_on with
  | _ N IH =>
    intro ps
    induction ps with
    | nil =>
      intro _
      refine ⟨by simp [depForestF], fun f _ => by simp [depForestF]⟩
    | cons p ps ihps =>
      intro hmem
      obtain ⟨hreachp, hrankp⟩ := hmem p (List.mem_cons_self p ps)
      obtain ⟨M, rfl⟩ : ∃ M, N = M + 1 := ⟨N - 1, by omega⟩
      have hgp : ∀ q ∈ g p, Reach g r0 q ∧ rank q < rank p :=
        fun q hq => ⟨Reach.step p q hreachp hq, hacyc p hreachp q hq⟩
      have IHp := IH (rank p) (by omega) (g p) hgp
      have ihtail := ihps (fun q hq => hmem q (List.mem_cons_of_mem p hq))
      obtain ⟨t, ht⟩ := Option.isSome_iff_exists.mp IHp.1
      obtain ⟨rest, hrest⟩ := Option.isSome_iff_exists.mp ihtail.1
      have hhead : ∀ f, rank p ≤ f → depForestF g f (g p) = some t :=
        fun f hf => by rw [IHp.2 f hf, ht]
      have htail : ∀ f, M + 1 ≤ f → depForestF g f ps = some rest :=
        fun f hf => by rw [ihtail.2 f hf, hrest]
      have hMp : rank p ≤ M := by omega
      constructor
      · simp [depForestF, hhead M hMp, htail (M + 1) (le_refl _)]
      · intro f hf
        obtain ⟨f1, rfl⟩ : ∃ f1, f = f1 + 1 := ⟨f - 1, by omega⟩
        simp [depForestF, hhead M hMp, htail (M + 1) (le_refl _),
          hhead f1 (by omega), htail (f1 + 1) (by omega)]

/-- C10: for every revision whose dependency graph reachable through
the depends-on links is acyclic (witnessed by a rank strictly
decreasing along reachable edges — finiteness and acyclicity of the
reachable part), the recursive walk of `get_dependency_tree`
terminates: beyond the rank bound its value is a fixed list `L`,
independent of the fuel, and `get_first_open_parent_revision`
accordingly terminates with the first open dependency of `L`.  The
walk has no cycle protection: on the self-loop graph it runs out of
any fuel (the embedding of non-termination). -/
theorem dependency_walk_terminates (g : Nat → List Nat)
    (status : Nat → Statuses) (rank : Nat → Nat) (r : Nat)
    (hacyc : ∀ x, Reach g r x → ∀ p ∈ g x, rank p < rank x) :
    (∃ L, (∀ fuel, rank r ≤ fuel → depTreeF g fuel r = some L) ∧
      ∀ fuel, rank r ≤ fuel →
        get_first_open_parent_revision g status fuel r =
          some (L.find? fun d => OPEN_STATUSES.contains (status d))) ∧
    ∀ fuel, depTreeF selfLoopGraph fuel 0 = none := by
  constructor
  · have hroot : ∀ p ∈ g r, Reach g r p ∧ rank p < rank r :=
      fun p hp => ⟨Reach.step r p Reach.refl hp, hacyc r Reach.refl p hp⟩
    have hst := depForestF_stable g r rank hacyc (rank r) (g r) hroot
    obtain ⟨L, hL⟩ := Option.isSome_iff_exists.mp hst.1
    refine ⟨L, fun fuel hf => ?_, fun fuel hf => ?_⟩
    · unfold depTreeF
      rw [hst.2 fuel hf, hL]
    · unfold get_first_open_parent_revision depTreeF
      rw [hst.2 fuel hf, hL]
      rfl
  · intro fuel
    induction fuel with
    | zero => simp [depTreeF, selfLoopGraph, depForestF]
    | succ n ihn =>
      simp [depTreeF, selfLoopGraph, depForestF] at ihn ⊢
      simp [ihn]

/-- Witness for C10 on the concrete linear graph `g2` (revision 1
depends on revision 2) with the decreasing rank `rank2`. -/
theorem dependency_walk_terminates_witness :
    (∃ L, (∀ fuel, rank2 1 ≤ fuel → depTreeF g2 fuel 1 = some L) ∧
      ∀ fuel, rank2 1 ≤ fuel →
        get_first_open_parent_revision g2 status2 fuel 1 =
          some (L.find? fun d => OPEN_STATUSES.contains (status2 d))) ∧
    ∀ fuel, depTreeF selfLoopGraph fuel 0 = none :=
  dependency_walk_terminates g2 status2 rank2 1 (by
    intro x hx p hp
    by_cases h : x = 1
    · subst h
      simp [g2] at hp
      subst hp
      decide
    · simp [g2, h] at hp)
